import Mathlib

/-!
Shallow embedding of `tools/flp_parse_report.py`: the aggregation and
rendering logic of the FLP parse-coverage report generator, together with
theorems about the properties the tool is documented to satisfy.
-/

namespace FlpReport

/-- The sub-identifier of a nested (VST plugin) sub-event: either a raw
numeric code (Python `int`) or a symbolic/known form. -/
inductive SubId where
  | num (n : Int)
  | sym (s : String)
deriving DecidableEq

/-- One nested sub-event of a VST plugin event: `sub_event["id"]` and
`len(sub_event["data"])`. -/
structure SubEvent where
  id : SubId
  dataLen : Nat
deriving DecidableEq

/-- One top-level event as exposed by `pyflp`: integer id (`int(event.id)`),
the optional symbolic name (`getattr(event.id, "name", None)`), the concrete
type name (`type(event).__name__`), whether it is an `UnknownDataEvent`,
whether it is a `VSTPluginEvent`, and (for VST plugin events) the declared
list of nested sub-events (`event["events"]`). -/
structure Event where
  id : Int
  idName : Option String
  typeName : String
  isUnknownData : Bool
  isVSTPlugin : Bool
  subEvents : List SubEvent
deriving DecidableEq

/-- `_pct(numerator, denominator)`: percentage, 0.0 on zero denominator. -/
def _pct (numerator : Nat) (denominator : Nat) : ℚ :=
  if denominator = 0 then 0
  else ((numerator : ℚ) / (denominator : ℚ)) * 100

/-- `_event_id_name(event)`: the symbolic name if present, otherwise the
decimal rendering of the integer id. -/
def _event_id_name (e : Event) : String :=
  match e.idName with
  | none => toString e.id
  | some name => name

/-- Keys of a Python `Counter` built from `l`, in first-seen order
(a `Counter` is a dict, so keys appear in insertion order). -/
def counterKeys {α : Type} [DecidableEq α] (l : List α) : List α :=
  l.foldl (fun acc k => if k ∈ acc then acc else acc ++ [k]) []

/-- The `(key, count)` items of the `Counter` of `l`, in first-seen key
order, which is how `Counter.items()` iterates. -/
def counterItems {α : Type} [DecidableEq α] (l : List α) : List (α × Nat) :=
  (counterKeys l).map (fun k => (k, l.count k))

/-- The items sorted by descending count with a stable sort; this is what
`Counter.most_common` produces before truncation (it is documented to be
equivalent to `sorted(items, key=count, reverse=True)`, a stable sort). -/
def rankedItems {α : Type} [DecidableEq α] (l : List α) : List (α × Nat) :=
  (counterItems l).mergeSort (fun a b => decide (b.2 ≤ a.2))

/-- `Counter.most_common(n)`: the first `n` ranked items; for `n ≤ 0`
(possible since the CLI passes `--top` through unchecked) `heapq.nlargest`
returns the empty list. -/
def mostCommon {α : Type} [DecidableEq α] (l : List α) (n : Int) : List (α × Nat) :=
  (rankedItems l).take n.toNat

/-- `unknown_top_level`: the events that are `UnknownDataEvent`s. -/
def unknown_top_level (events : List Event) : List Event :=
  events.filter (fun e => e.isUnknownData)

/-- `parsed_events = total_events - len(unknown_top_level)`. -/
def parsed_events (events : List Event) : Nat :=
  events.length - (unknown_top_level events).length

/-- Keys fed to `event_type_counts`. -/
def event_type_keys (events : List Event) : List String :=
  events.map (fun e => e.typeName)

/-- Keys fed to `top_level_id_counts`. -/
def top_level_id_keys (events : List Event) : List (Int × String × String) :=
  events.map (fun e => (e.id, _event_id_name e, e.typeName))

/-- Keys fed to `unknown_top_level_id_counts`. -/
def unknown_top_level_id_keys (events : List Event) : List Int :=
  (unknown_top_level events).map (fun e => e.id)

/-- `unknown_vst_subevents`: for every `VSTPluginEvent`, every nested
sub-event whose id is a raw `int`, as an `(id, data length)` pair. -/
def unknown_vst_subevents (events : List Event) : List (Int × Nat) :=
  (events.filter (fun e => e.isVSTPlugin)).flatMap (fun e =>
    e.subEvents.filterMap (fun s =>
      match s.id with
      | SubId.num n => some (n, s.dataLen)
      | SubId.sym _ => none))

/-- Keys fed to `unknown_vst_counts`. -/
def unknown_vst_keys (events : List Event) : List Int :=
  (unknown_vst_subevents events).map (fun p => p.1)

/-- `parsed_pct = _pct(parsed_events, total_events)`. -/
def parsed_pct (events : List Event) : ℚ :=
  _pct (parsed_events events) events.length

/-- `unknown_pct = 100.0 - parsed_pct if total_events else 0.0`. -/
def unknown_pct (events : List Event) : ℚ :=
  if events.length = 0 then 0 else 100 - parsed_pct events

theorem length_unknown_top_level_le (events : List Event) :
    (unknown_top_level events).length ≤ events.length :=
  List.length_filter_le _ _

/-- C1: recognized plus unrecognized events account for every record. -/
theorem parsed_plus_unknown_eq_total (events : List Event) :
    parsed_events events + (unknown_top_level events).length = events.length ∧
    parsed_events events =
      (events.filter (fun e => ¬ e.isUnknownData)).length := by
  constructor
  · exact Nat.sub_add_cancel (length_unknown_top_level_le events)
  · unfold parsed_events unknown_top_level
    have h := List.length_eq_countP_add_countP (fun e => e.isUnknownData) events
    rw [List.countP_eq_length_filter, List.countP_eq_length_filter] at h
    omega

/-- C2: the percentages follow the documented formula, are both 0 on an
empty input, and sum to exactly 100 whenever there is at least one record. -/
theorem pct_formula (events : List Event) :
    (parsed_pct events =
      if events.length = 0 then 0
      else 100 * (parsed_events events : ℚ) / (events.length : ℚ)) ∧
    (unknown_pct events =
      if events.length = 0 then 0 else 100 - parsed_pct events) ∧
    (events.length = 0 → parsed_pct events = 0 ∧ unknown_pct events = 0) ∧
    (0 < events.length → parsed_pct events + unknown_pct events = 100) := by
  refine ⟨?_, rfl, ?_, ?_⟩
  · unfold parsed_pct _pct
    by_cases h : events.length = 0
    · simp [h]
    · simp only [h, if_false]
      ring
  · intro h
    unfold parsed_pct _pct unknown_pct
    simp [h]
  · intro h
    unfold unknown_pct
    have h0 : events.length ≠ 0 := Nat.pos_iff_ne_zero.mp h
    simp only [h0, if_false]
    ring

/-- Concrete instance for `pct_formula`: a one-event input has percentages
summing to 100, and the empty input has both percentages equal to 0. -/
theorem pct_formula_witness :
    (([] : List Event).length = 0 ∧ parsed_pct [] = 0 ∧ unknown_pct [] = 0) ∧
    (0 < ([⟨10, some "A", "TA", false, false, []⟩] : List Event).length ∧
      parsed_pct [⟨10, some "A", "TA", false, false, []⟩] +
        unknown_pct [⟨10, some "A", "TA", false, false, []⟩] = 100) :=
  ⟨⟨rfl, (pct_formula []).2.2.1 rfl⟩,
    ⟨by decide, (pct_formula [⟨10, some "A", "TA", false, false, []⟩]).2.2.2 (by decide)⟩⟩

theorem mem_counterKeys_fold {α : Type} [DecidableEq α] (l : List α) (acc : List α) (x : α) :
    x ∈ l.foldl (fun acc k => if k ∈ acc then acc else acc ++ [k]) acc ↔
      x ∈ acc ∨ x ∈ l := by
  induction l generalizing acc with
  | nil => simp
  | cons a l ih =>
    simp only [List.foldl_cons]
    by_cases h : a ∈ acc
    · rw [if_pos h, ih]
      constructor
      · rintro (hx | hx)
        · exact Or.inl hx
        · exact Or.inr (List.mem_cons_of_mem _ hx)
      · rintro (hx | hx)
        · exact Or.inl hx
        · rcases List.mem_cons.mp hx with h1 | h1
          · exact Or.inl (by rw [h1]; exact h)
          · exact Or.inr h1
    · rw [if_neg h, ih]
      simp only [List.mem_append, List.mem_singleton, List.mem_cons]
      tauto

theorem nodup_counterKeys_fold {α : Type} [DecidableEq α] (l : List α) (acc : List α)
    (h : acc.Nodup) :
    (l.foldl (fun acc k => if k ∈ acc then acc else acc ++ [k]) acc).Nodup := by
  induction l generalizing acc with
  | nil => simpa
  | cons a l ih =>
    simp only [List.foldl_cons]
    by_cases ha : a ∈ acc
    · rw [if_pos ha]; exact ih acc h
    · rw [if_neg ha]
      refine ih _ ?_
      rw [List.nodup_append]
      exact ⟨h, List.nodup_singleton a,
        fun x hx hxa => ha ((List.mem_singleton.mp hxa) ▸ hx)⟩

theorem mem_counterKeys {α : Type} [DecidableEq α] (l : List α) (x : α) :
    x ∈ counterKeys l ↔ x ∈ l := by
  unfold counterKeys
  rw [mem_counterKeys_fold]
  simp

theorem counterKeys_nodup {α : Type} [DecidableEq α] (l : List α) :
    (counterKeys l).Nodup :=
  nodup_counterKeys_fold l [] List.nodup_nil

theorem counterItems_map_fst {α : Type} [DecidableEq α] (l : List α) :
    (counterItems l).map Prod.fst = counterKeys l := by
  unfold counterItems
  rw [List.map_map]
  exact List.map_id _

theorem countLe_trans (a b c : α × Nat) :
    decide (b.2 ≤ a.2) → decide (c.2 ≤ b.2) → decide (c.2 ≤ a.2) := by
  intro h1 h2
  simp only [decide_eq_true_eq] at *
  omega

theorem countLe_total (a b : α × Nat) :
    (decide (b.2 ≤ a.2) || decide (a.2 ≤ b.2)) = true := by
  simp only [Bool.or_eq_true, decide_eq_true_eq]
  omega

theorem rankedItems_perm {α : Type} [DecidableEq α] (l : List α) :
    List.Perm (rankedItems l) (counterItems l) :=
  List.mergeSort_perm (counterItems l) _

theorem rankedItems_sorted {α : Type} [DecidableEq α] (l : List α) :
    (rankedItems l).Pairwise (fun a b => b.2 ≤ a.2) := by
  have h := @List.sorted_mergeSort (α × Nat) (fun a b => decide (b.2 ≤ a.2))
    countLe_trans countLe_total (counterItems l)
  exact h.imp (fun hab => of_decide_eq_true hab)

theorem rankedItems_filter_count {α : Type} [DecidableEq α] (l : List α) (c : Nat) :
    (rankedItems l).filter (fun p => p.2 == c) =
      (counterItems l).filter (fun p => p.2 == c) := by
  have hsub : List.Sublist ((counterItems l).filter (fun p => p.2 == c)) (rankedItems l) := by
    apply List.sublist_mergeSort countLe_trans countLe_total
    · refine List.pairwise_of_forall_mem_list ?_
      intro a ha b hb
      have ha2 : a.2 = c := by
        have := (List.mem_filter.mp ha).2
        simpa using this
      have hb2 : b.2 = c := by
        have := (List.mem_filter.mp hb).2
        simpa using this
      simp [ha2, hb2]
    · exact List.filter_sublist _
  have hperm : List.Perm ((rankedItems l).filter (fun p => p.2 == c))
      ((counterItems l).filter (fun p => p.2 == c)) :=
    (rankedItems_perm l).filter _
  have h1 : List.Sublist ((counterItems l).filter (fun p => p.2 == c))
      ((rankedItems l).filter (fun p => p.2 == c)) := by
    have h2 := hsub.filter (fun p => p.2 == c)
    rwa [List.filter_eq_self.mpr (fun a ha => (List.mem_filter.mp ha).2)] at h2
  exact (h1.eq_of_length hperm.length_eq.symm).symm

/-- A ranked frequency table is lawful when it is sorted by descending
count and, within each fixed count, lists entries exactly in the order of
`counterItems`, which is first-seen key order. -/
def tableLawful {α : Type} [DecidableEq α] (keys : List α) : Prop :=
  (rankedItems keys).Pairwise (fun a b => b.2 ≤ a.2) ∧
  (∀ c : Nat, (rankedItems keys).filter (fun p => p.2 == c) =
    (counterItems keys).filter (fun p => p.2 == c)) ∧
  (counterItems keys).map Prod.fst = counterKeys keys

theorem tableLawful_of_keys {α : Type} [DecidableEq α] (keys : List α) :
    tableLawful keys :=
  ⟨rankedItems_sorted keys, fun c => rankedItems_filter_count keys c,
    counterItems_map_fst keys⟩

/-- C3: all four frequency tables are ranked by descending count with
equal-count entries kept in first-seen order. -/
theorem tables_ranked_stable (events : List Event) :
    tableLawful (event_type_keys events) ∧
    tableLawful (top_level_id_keys events) ∧
    tableLawful (unknown_top_level_id_keys events) ∧
    tableLawful (unknown_vst_keys events) :=
  ⟨tableLawful_of_keys _, tableLawful_of_keys _, tableLawful_of_keys _,
    tableLawful_of_keys _⟩

/-- Truncating a ranked table to its top `n` rows takes exactly a prefix of
the full ranked table, and when `n` covers every distinct key each key is
listed exactly once. -/
def truncationFaithful {α : Type} [DecidableEq α] (keys : List α) (n : Int) : Prop :=
  mostCommon keys n ++ (rankedItems keys).drop n.toNat = rankedItems keys ∧
  ((counterKeys keys).length ≤ n.toNat →
    List.Perm ((mostCommon keys n).map Prod.fst) (counterKeys keys) ∧
    ((mostCommon keys n).map Prod.fst).Nodup)

theorem truncationFaithful_of_keys {α : Type} [DecidableEq α] (keys : List α) (n : Int) :
    truncationFaithful keys n := by
  constructor
  · exact List.take_append_drop _ _
  · intro h
    have hlen : (rankedItems keys).length = (counterKeys keys).length := by
      rw [(rankedItems_perm keys).length_eq]
      unfold counterItems
      rw [List.length_map]
    have htake : mostCommon keys n = rankedItems keys := by
      unfold mostCommon
      apply List.take_of_length_le
      omega
    have hp : List.Perm ((mostCommon keys n).map Prod.fst) (counterKeys keys) := by
      rw [htake, ← counterItems_map_fst keys]
      exact (rankedItems_perm keys).map _
    exact ⟨hp, hp.nodup_iff.mpr (counterKeys_nodup keys)⟩

/-- C4: every displayed table is a prefix of the untruncated ranked table,
a limit at least the number of distinct keys shows each key exactly once,
and the coverage percentages are computed from the full counters with no
dependence on the row limit. -/
theorem truncation_prefix_of_ranked (events : List Event) (n : Int) :
    truncationFaithful (event_type_keys events) n ∧
    truncationFaithful (top_level_id_keys events) n ∧
    truncationFaithful (unknown_top_level_id_keys events) n ∧
    truncationFaithful (unknown_vst_keys events) n ∧
    parsed_pct events = _pct (parsed_events events) events.length ∧
    unknown_pct events = (if events.length = 0 then 0 else 100 - parsed_pct events) :=
  ⟨truncationFaithful_of_keys _ n, truncationFaithful_of_keys _ n,
    truncationFaithful_of_keys _ n, truncationFaithful_of_keys _ n, rfl, rfl⟩

/-- Concrete instance for `truncation_prefix_of_ranked`: with two distinct
type names and the default limit 25, every distinct key appears exactly
once in the displayed type table. -/
theorem truncation_prefix_witness :
    (counterKeys (event_type_keys
        [⟨1, none, "A", false, false, []⟩, ⟨2, some "B", "TB", true, false, []⟩])).length ≤
      (25 : Int).toNat ∧
    (List.Perm ((mostCommon (event_type_keys
        [⟨1, none, "A", false, false, []⟩, ⟨2, some "B", "TB", true, false, []⟩]) 25).map Prod.fst)
      (counterKeys (event_type_keys
        [⟨1, none, "A", false, false, []⟩, ⟨2, some "B", "TB", true, false, []⟩])) ∧
      ((mostCommon (event_type_keys
        [⟨1, none, "A", false, false, []⟩, ⟨2, some "B", "TB", true, false, []⟩]) 25).map
          Prod.fst).Nodup) :=
  ⟨by decide,
    (truncation_prefix_of_ranked
      [⟨1, none, "A", false, false, []⟩, ⟨2, some "B", "TB", true, false, []⟩] 25).1.2
      (by decide)⟩

/-- Whether a nested sub-event's identifier is a raw numeric code
(`type(sub_event["id"]) is int`) rather than a symbolic form. -/
def subIdIsNumeric (s : SubEvent) : Bool :=
  match s.id with
  | SubId.num _ => true
  | SubId.sym _ => false

theorem length_filterMap_numeric (l : List SubEvent) :
    (l.filterMap (fun s =>
      match s.id with
      | SubId.num n => some (n, s.dataLen)
      | SubId.sym _ => none)).length = (l.filter subIdIsNumeric).length := by
  induction l with
  | nil => rfl
  | cons s l ih =>
    cases hs : s.id with
    | num n =>
      simp only [List.filterMap_cons, List.filter_cons, hs, subIdIsNumeric]
      simp [ih]
    | sym t =>
      simp only [List.filterMap_cons, List.filter_cons, hs, subIdIsNumeric]
      simp [ih]

/-- C5: for a single plugin-container record, nested entries are tallied
exactly when their sub-identifier is a raw numeric code; records of any
other kind and empty nested lists contribute nothing. -/
theorem vst_nested_tally (e : Event) :
    (e.isVSTPlugin = true →
      unknown_vst_subevents [e] =
        e.subEvents.filterMap (fun s =>
          match s.id with
          | SubId.num n => some (n, s.dataLen)
          | SubId.sym _ => none) ∧
      (unknown_vst_subevents [e]).length =
        (e.subEvents.filter subIdIsNumeric).length) ∧
    (e.isVSTPlugin = false → unknown_vst_subevents [e] = []) ∧
    (e.subEvents = [] → unknown_vst_subevents [e] = []) := by
  refine ⟨?_, ?_, ?_⟩
  · intro h
    have he : unknown_vst_subevents [e] =
        e.subEvents.filterMap (fun s =>
          match s.id with
          | SubId.num n => some (n, s.dataLen)
          | SubId.sym _ => none) := by
      unfold unknown_vst_subevents
      simp [List.filter_cons, h]
    exact ⟨he, by rw [he]; exact length_filterMap_numeric e.subEvents⟩
  · intro h
    unfold unknown_vst_subevents
    simp [List.filter_cons, h]
  · intro h
    unfold unknown_vst_subevents
    cases hv : e.isVSTPlugin <;> simp [List.filter_cons, hv, h]

/-- Concrete instance for `vst_nested_tally`: one plugin record with one
numeric-id and one symbolic-id nested entry tallies exactly one entry. -/
theorem vst_nested_tally_witness :
    (Event.mk 99 (some "Plugin") "VSTPluginEvent" false true
        [⟨SubId.num 7, 3⟩, ⟨SubId.sym "name", 5⟩]).isVSTPlugin = true ∧
    (unknown_vst_subevents [Event.mk 99 (some "Plugin") "VSTPluginEvent" false true
        [⟨SubId.num 7, 3⟩, ⟨SubId.sym "name", 5⟩]]).length =
      ((Event.mk 99 (some "Plugin") "VSTPluginEvent" false true
        [⟨SubId.num 7, 3⟩, ⟨SubId.sym "name", 5⟩]).subEvents.filter subIdIsNumeric).length :=
  ⟨rfl,
    ((vst_nested_tally (Event.mk 99 (some "Plugin") "VSTPluginEvent" false true
        [⟨SubId.num 7, 3⟩, ⟨SubId.sym "name", 5⟩])).1 rfl).2⟩

/-- `html.escape` of a single character (with `quote=True`, the default:
the two quote characters are escaped as well). -/
def escapeChar (c : Char) : String :=
  if c = '&' then "&amp;"
  else if c = '<' then "&lt;"
  else if c = '>' then "&gt;"
  else if c = Char.ofNat 34 then "&quot;"
  else if c = Char.ofNat 39 then "&#x27;"
  else String.singleton c

/-- `html.escape(s)`. -/
def escape (s : String) : String :=
  String.join (s.data.map escapeChar)

/-- The characters `html.escape` rewrites. -/
def isMarkupSpecial (c : Char) : Bool :=
  c == '&' || c == '<' || c == '>' || c == Char.ofNat 34 || c == Char.ofNat 39

/-- Two-decimal rendering of a percentage, as in the `:.2f` format specs. -/
def fmt2 (q : ℚ) : String :=
  let n : Int := round (q * 100)
  let a : Nat := n.natAbs
  (if n < 0 then "-" else "") ++ toString (a / 100) ++ "." ++
    (if a % 100 < 10 then "0" else "") ++ toString (a % 100)

/-- Placeholder row for an empty two-column event table. -/
def noEventsRow2 : String := "<tr><td colspan=\x272\x27>No events</td></tr>"

/-- Placeholder row for the empty four-column id table. -/
def noEventsRow4 : String := "<tr><td colspan=\x274\x27>No events</td></tr>"

/-- Placeholder row for an empty unknown-id table. -/
def noneRow2 : String := "<tr><td colspan=\x272\x27>None</td></tr>"

/-- `type_rows`: the rendered rows of the event-type table, or the
placeholder when the joined string is empty. -/
def type_rows (events : List Event) (topN : Int) : String :=
  let r := String.intercalate "\n"
    ((mostCommon (event_type_keys events) topN).map (fun p =>
      "<tr>" ++ "<td>" ++ escape p.1 ++ "</td>" ++ "<td>" ++ toString p.2 ++
        "</td>" ++ "</tr>"))
  if r = "" then noEventsRow2 else r

/-- `id_rows`: the rendered rows of the (id, name, kind) table. -/
def id_rows (events : List Event) (topN : Int) : String :=
  let r := String.intercalate "\n"
    ((mostCommon (top_level_id_keys events) topN).map (fun p =>
      "<tr>" ++ "<td>" ++ toString p.1.1 ++ "</td>" ++ "<td>" ++ escape p.1.2.1 ++
        "</td>" ++ "<td>" ++ escape p.1.2.2 ++ "</td>" ++ "<td>" ++ toString p.2 ++
        "</td>" ++ "</tr>"))
  if r = "" then noEventsRow4 else r

/-- `unknown_top_level_rows`: the rendered rows of the unknown-id table. -/
def unknown_top_level_rows (events : List Event) (topN : Int) : String :=
  let r := String.intercalate "\n"
    ((mostCommon (unknown_top_level_id_keys events) topN).map (fun p =>
      "<tr>" ++ "<td>" ++ toString p.1 ++ "</td>" ++ "<td>" ++ toString p.2 ++
        "</td>" ++ "</tr>"))
  if r = "" then noneRow2 else r

/-- `unknown_vst_rows`: the rendered rows of the unknown VST sub-id table. -/
def unknown_vst_rows (events : List Event) (topN : Int) : String :=
  let r := String.intercalate "\n"
    ((mostCommon (unknown_vst_keys events) topN).map (fun p =>
      "<tr>" ++ "<td>" ++ toString p.1 ++ "</td>" ++ "<td>" ++ toString p.2 ++
        "</td>" ++ "</tr>"))
  if r = "" then noneRow2 else r

/-- CSS class of the unknown-top-level metric card:
`\x27bad\x27 if unknown_top_level else \x27ok\x27`. -/
def unknown_card_class (events : List Event) : String :=
  if unknown_top_level events = [] then "ok" else "bad"

/-- CSS class of the unknown-VST metric card:
`\x27warn\x27 if unknown_vst_subevents else \x27ok\x27`. -/
def vst_card_class (events : List Event) : String :=
  if unknown_vst_subevents events = [] then "ok" else "warn"

/-- Literal segment 1 of the HTML template. -/
def tpl1 : String :=
  "<!doctype html>\n<html lang=\"en\">\n<head>\n<meta charset=\"utf-8\">\n<meta name=\"viewport\" content=\"width=device-width, initial-scale=1\">\n<title>PyFLP Parse Report</title>\n<style>\n* \x7b box-sizing: border-box; \x7d\nbody \x7b\n  margin: 24px;\n  font-family: \"SF Pro Text\", \"Segoe UI\", sans-serif;\n  color: #1f2937;\n  background: linear-gradient(180deg, #f7fafc, #eef2f7);\n\x7d\nh1, h2 \x7b margin-top: 0; \x7d\n.grid \x7b\n  display: grid;\n  grid-template-columns: repeat(auto-fit, minmax(220px, 1fr));\n  gap: 12px;\n  margin-bottom: 20px;\n\x7d\n.card \x7b\n  background: #ffffff;\n  border: 1px solid #dbe3ee;\n  border-radius: 12px;\n  padding: 14px;\n  box-shadow: 0 2px 6px rgba(0, 0, 0, 0.05);\n\x7d\n.metric \x7b font-size: 28px; font-weight: 700; margin-top: 8px; \x7d\n.ok \x7b color: #127d3e; \x7d\n.warn \x7b color: #b54708; \x7d\n.bad \x7b color: #b42318; \x7d\n.bar \x7b\n  width: 100%;\n  height: 16px;\n  border-radius: 999px;\n  overflow: hidden;\n  background: #e5e7eb;\n  border: 1px solid #d1d5db;\n\x7d\n.bar > div \x7b\n  height: 100%;\n  background: linear-gradient(90deg, #16a34a, #4ade80);\n\x7d\ntable \x7b\n  width: 100%;\n  border-collapse: collapse;\n  background: #fff;\n  border: 1px solid #dbe3ee;\n  border-radius: 10px;\n  overflow: hidden;\n\x7d\nth, td \x7b text-align: left; padding: 10px; border-bottom: 1px solid #eef2f7; \x7d\nth \x7b background: #f8fafc; font-weight: 600; \x7d\nsection \x7b margin-bottom: 20px; \x7d\n</style>\n</head>\n<body>\n<h1>PyFLP Parse Coverage Report</h1>\n<p><strong>File:</strong> "

/-- Literal segment 2 of the HTML template. -/
def tpl2 : String :=
  "</p>\n\n<div class=\"grid\">\n  <div class=\"card\">\n    <div>Total events</div>\n    <div class=\"metric\">"

/-- Literal segment 3 of the HTML template. -/
def tpl3 : String :=
  "</div>\n  </div>\n  <div class=\"card\">\n    <div>Parsed events</div>\n    <div class=\"metric ok\">"

/-- Literal segment 4 of the HTML template. -/
def tpl4 : String :=
  " ("

/-- Literal segment 5 of the HTML template. -/
def tpl5 : String :=
  "%)</div>\n  </div>\n  <div class=\"card\">\n    <div>Unknown top-level events</div>\n    <div class=\"metric "

/-- Literal segment 6 of the HTML template. -/
def tpl6 : String :=
  "\">"

/-- Literal segment 7 of the HTML template. -/
def tpl7 : String :=
  " ("

/-- Literal segment 8 of the HTML template. -/
def tpl8 : String :=
  "%)</div>\n  </div>\n  <div class=\"card\">\n    <div>Unknown VST sub-events</div>\n    <div class=\"metric "

/-- Literal segment 9 of the HTML template. -/
def tpl9 : String :=
  "\">"

/-- Literal segment 10 of the HTML template. -/
def tpl10 : String :=
  "</div>\n  </div>\n</div>\n\n<section class=\"card\">\n  <h2>Top-level Parse Coverage</h2>\n  <div class=\"bar\"><div style=\"width: "

/-- Literal segment 11 of the HTML template. -/
def tpl11 : String :=
  "%\"></div></div>\n  <p>"

/-- Literal segment 12 of the HTML template. -/
def tpl12 : String :=
  " of "

/-- Literal segment 13 of the HTML template. -/
def tpl13 : String :=
  " top-level events parsed into known event types.</p>\n</section>\n\n<section>\n  <h2>Top Event Types (Top "

/-- Literal segment 14 of the HTML template. -/
def tpl14 : String :=
  ")</h2>\n  <table>\n    <thead><tr><th>Event Type</th><th>Count</th></tr></thead>\n    <tbody>"

/-- Literal segment 15 of the HTML template. -/
def tpl15 : String :=
  "</tbody>\n  </table>\n</section>\n\n<section>\n  <h2>Top Event IDs (Top "

/-- Literal segment 16 of the HTML template. -/
def tpl16 : String :=
  ")</h2>\n  <table>\n    <thead><tr><th>ID</th><th>Name</th><th>Parsed As</th><th>Count</th></tr></thead>\n    <tbody>"

/-- Literal segment 17 of the HTML template. -/
def tpl17 : String :=
  "</tbody>\n  </table>\n</section>\n\n<section>\n  <h2>Unknown Top-level Event IDs (Top "

/-- Literal segment 18 of the HTML template. -/
def tpl18 : String :=
  ")</h2>\n  <table>\n    <thead><tr><th>ID</th><th>Count</th></tr></thead>\n    <tbody>"

/-- Literal segment 19 of the HTML template. -/
def tpl19 : String :=
  "</tbody>\n  </table>\n</section>\n\n<section>\n  <h2>Unknown VST Sub-event IDs (Top "

/-- Literal segment 20 of the HTML template. -/
def tpl20 : String :=
  ")</h2>\n  <table>\n    <thead><tr><th>Sub-event ID</th><th>Count</th></tr></thead>\n    <tbody>"

/-- Literal segment 21 of the HTML template. -/
def tpl21 : String :=
  "</tbody>\n  </table>\n</section>\n</body>\n</html>\n"

/-- The document between the inserted file path and the first table body:
summary cards, progress bar, and section headings up to the type table. -/
def docMid (events : List Event) (topN : Int) : String :=
  tpl2 ++ (toString events.length ++ (tpl3 ++ (toString (parsed_events events) ++
    (tpl4 ++ (fmt2 (parsed_pct events) ++ (tpl5 ++ (unknown_card_class events ++
    (tpl6 ++ (toString (unknown_top_level events).length ++ (tpl7 ++
    (fmt2 (unknown_pct events) ++ (tpl8 ++ (vst_card_class events ++ (tpl9 ++
    (toString (unknown_vst_subevents events).length ++ (tpl10 ++
    (fmt2 (parsed_pct events) ++ (tpl11 ++ (toString (parsed_events events) ++
    (tpl12 ++ (toString events.length ++ (tpl13 ++ (toString topN ++
    tpl14)))))))))))))))))))))))

/-- Template text between the type table body and the id table body. -/
def tplMid1 (topN : Int) : String := tpl15 ++ (toString topN ++ tpl16)

/-- Template text between the id table body and the unknown-id table body. -/
def tplMid2 (topN : Int) : String := tpl17 ++ (toString topN ++ tpl18)

/-- Template text between the unknown-id table body and the VST table body. -/
def tplMid3 (topN : Int) : String := tpl19 ++ (toString topN ++ tpl20)

/-- The four table bodies with the template text around them. -/
def docTail (events : List Event) (topN : Int) : String :=
  type_rows events topN ++ (tplMid1 topN ++ (id_rows events topN ++
    (tplMid2 topN ++ (unknown_top_level_rows events topN ++ (tplMid3 topN ++
    (unknown_vst_rows events topN ++ tpl21))))))

/-- `build_report(flp_path, top_n)` after parsing: the full HTML document,
assembled exactly as the f-string of the source fills its holes. The
resolved input path arrives as `flpPath`; the parsed event list as
`events`. -/
def build_report (flpPath : String) (events : List Event) (topN : Int) : String :=
  tpl1 ++ (escape flpPath ++ (docMid events topN ++ docTail events topN))

theorem intercalate_nil_eq (s : String) : s.intercalate [] = "" := rfl

theorem escapeChar_cases (c : Char) :
    escapeChar c = "&amp;" ∨ escapeChar c = "&lt;" ∨ escapeChar c = "&gt;" ∨
    escapeChar c = "&quot;" ∨ escapeChar c = "&#x27;" ∨
    (isMarkupSpecial c = false ∧ escapeChar c = String.singleton c) := by
  unfold escapeChar isMarkupSpecial
  by_cases h1 : c = '&'
  · simp [h1]
  · by_cases h2 : c = '<'
    · simp [h1, h2]
    · by_cases h3 : c = '>'
      · simp [h1, h2, h3]
      · by_cases h4 : c = Char.ofNat 34
        · simp [h1, h2, h3, h4]
        · by_cases h5 : c = Char.ofNat 39
          · simp [h1, h2, h3, h4, h5]
          · refine Or.inr (Or.inr (Or.inr (Or.inr (Or.inr ⟨?_, ?_⟩))))
            · simp [h1, h2, h3, h4, h5]
            · simp [h1, h2, h3, h4, h5]

theorem escapeChar_no_raw (c x : Char) (hx : x ∈ (escapeChar c).data) :
    x ≠ '<' ∧ x ≠ '>' ∧ x ≠ Char.ofNat 34 ∧ x ≠ Char.ofNat 39 := by
  rcases escapeChar_cases c with h | h | h | h | h | ⟨hs, h⟩ <;> rw [h] at hx
  · revert x; decide
  · revert x; decide
  · revert x; decide
  · revert x; decide
  · revert x; decide
  · have hx' : x = c := by
      simpa [String.singleton] using hx
    subst hx'
    unfold isMarkupSpecial at hs
    simp only [Bool.or_eq_false_iff, beq_eq_false_iff_ne, ne_eq] at hs
    exact ⟨hs.1.1.1.2, hs.1.1.2, hs.1.2, hs.2⟩

theorem escape_no_raw (s : String) (x : Char) (hx : x ∈ (escape s).data) :
    x ≠ '<' ∧ x ≠ '>' ∧ x ≠ Char.ofNat 34 ∧ x ≠ Char.ofNat 39 := by
  unfold escape at hx
  rw [String.data_join, List.mem_flatten] at hx
  obtain ⟨l, hl, hxl⟩ := hx
  rw [List.map_map, List.mem_map] at hl
  obtain ⟨c, _, rfl⟩ := hl
  exact escapeChar_no_raw c x hxl

theorem append_eq_empty_parts (a b : String) (h : a ++ b = "") : a = "" ∧ b = "" := by
  have hd := congrArg String.data h
  rw [String.data_append] at hd
  rw [show ("" : String).data = [] from rfl] at hd
  have hp := List.append_eq_nil.mp hd
  exact ⟨String.ext (by rw [hp.1]), String.ext (by rw [hp.2])⟩

theorem append_ne_empty_of_left (a b : String) (ha : a ≠ "") : a ++ b ≠ "" :=
  fun h => ha (append_eq_empty_parts a b h).1

theorem append_ne_empty_of_right (a b : String) (hb : b ≠ "") : a ++ b ≠ "" :=
  fun h => hb (append_eq_empty_parts a b h).2

theorem intercalate_go_append (s : String) (as : List String) :
    ∀ acc : String, ∃ t : String, String.intercalate.go acc s as = acc ++ t := by
  induction as with
  | nil =>
    intro acc
    exact ⟨"", (String.append_empty acc).symm⟩
  | cons a as ih =>
    intro acc
    obtain ⟨t, ht⟩ := ih ((acc ++ s) ++ a)
    refine ⟨s ++ (a ++ t), ?_⟩
    show String.intercalate.go ((acc ++ s) ++ a) s as = acc ++ (s ++ (a ++ t))
    rw [ht]
    simp [String.append_assoc]

theorem intercalate_go_mem (s : String) (as : List String) :
    ∀ (acc x : String), x ∈ as →
      ∃ pre post : String, String.intercalate.go acc s as = pre ++ (x ++ post) := by
  induction as with
  | nil =>
    intro acc x hx
    exact absurd hx (List.not_mem_nil x)
  | cons a as ih =>
    intro acc x hx
    rcases List.mem_cons.mp hx with h | h
    · subst h
      obtain ⟨t, ht⟩ := intercalate_go_append s as ((acc ++ s) ++ x)
      refine ⟨acc ++ s, t, ?_⟩
      show String.intercalate.go ((acc ++ s) ++ x) s as = (acc ++ s) ++ (x ++ t)
      rw [ht]
      simp [String.append_assoc]
    · exact ih ((acc ++ s) ++ a) x h

theorem intercalate_map_mem {α : Type} (s : String) (f : α → String) (l : List α)
    (p : α) (hp : p ∈ l) :
    ∃ pre post : String, String.intercalate s (l.map f) = pre ++ (f p ++ post) := by
  cases l with
  | nil => exact absurd hp (List.not_mem_nil p)
  | cons a as =>
    rcases List.mem_cons.mp hp with h | h
    · subst h
      obtain ⟨t, ht⟩ := intercalate_go_append s (as.map f) (f p)
      exact ⟨"", t, ht⟩
    · exact intercalate_go_mem s (as.map f) (f a) (f p) (List.mem_map_of_mem f h)

theorem type_rows_insertion (events : List Event) (n : Int) (k : String) (cnt : Nat)
    (hk : (k, cnt) ∈ mostCommon (event_type_keys events) n) :
    ∃ pre post : String, type_rows events n = pre ++ (escape k ++ post) := by
  obtain ⟨pre, post, hs⟩ := intercalate_map_mem "\n"
    (fun p => "<tr>" ++ "<td>" ++ escape p.1 ++ "</td>" ++ "<td>" ++ toString p.2 ++
      "</td>" ++ "</tr>")
    (mostCommon (event_type_keys events) n) (k, cnt) hk
  have hne : String.intercalate "\n"
      ((mostCommon (event_type_keys events) n).map
        (fun p => "<tr>" ++ "<td>" ++ escape p.1 ++ "</td>" ++ "<td>" ++ toString p.2 ++
          "</td>" ++ "</tr>")) ≠ "" := by
    rw [hs]
    show pre ++ (("<tr>" ++ "<td>" ++ escape k ++ "</td>" ++ "<td>" ++ toString cnt ++
      "</td>" ++ "</tr>") ++ post) ≠ ""
    apply append_ne_empty_of_right
    apply append_ne_empty_of_left
    apply append_ne_empty_of_right
    decide
  refine ⟨pre ++ ("<tr>" ++ "<td>"),
    "</td>" ++ ("<td>" ++ (toString cnt ++ ("</td>" ++ ("</tr>" ++ post)))), ?_⟩
  simp only [type_rows]
  rw [if_neg hne, hs]
  simp only [String.append_assoc]

theorem id_rows_insertion (events : List Event) (n : Int) (eid : Int)
    (name ty : String) (cnt : Nat)
    (hk : ((eid, name, ty), cnt) ∈ mostCommon (top_level_id_keys events) n) :
    ∃ pre mid post : String,
      id_rows events n = pre ++ (escape name ++ (mid ++ (escape ty ++ post))) := by
  obtain ⟨pre, post, hs⟩ := intercalate_map_mem "\n"
    (fun p => "<tr>" ++ "<td>" ++ toString p.1.1 ++ "</td>" ++ "<td>" ++ escape p.1.2.1 ++
      "</td>" ++ "<td>" ++ escape p.1.2.2 ++ "</td>" ++ "<td>" ++ toString p.2 ++
      "</td>" ++ "</tr>")
    (mostCommon (top_level_id_keys events) n) ((eid, name, ty), cnt) hk
  have hne : String.intercalate "\n"
      ((mostCommon (top_level_id_keys events) n).map
        (fun p => "<tr>" ++ "<td>" ++ toString p.1.1 ++ "</td>" ++ "<td>" ++
          escape p.1.2.1 ++ "</td>" ++ "<td>" ++ escape p.1.2.2 ++ "</td>" ++ "<td>" ++
          toString p.2 ++ "</td>" ++ "</tr>")) ≠ "" := by
    rw [hs]
    show pre ++ (("<tr>" ++ "<td>" ++ toString eid ++ "</td>" ++ "<td>" ++ escape name ++
      "</td>" ++ "<td>" ++ escape ty ++ "</td>" ++ "<td>" ++ toString cnt ++
      "</td>" ++ "</tr>") ++ post) ≠ ""
    apply append_ne_empty_of_right
    apply append_ne_empty_of_left
    apply append_ne_empty_of_right
    decide
  refine ⟨pre ++ ("<tr>" ++ ("<td>" ++ (toString eid ++ ("</td>" ++ "<td>")))),
    "</td>" ++ "<td>",
    "</td>" ++ ("<td>" ++ (toString cnt ++ ("</td>" ++ ("</tr>" ++ post)))), ?_⟩
  simp only [id_rows]
  rw [if_neg hne, hs]
  simp only [String.append_assoc]

/-- C6: escaped text never contains a raw markup-special character; the
escape of any string splits into entity references and single non-special
characters; and every piece of user-derived text reaches the document only
through `escape`: the file path at its splice point, every displayed type
name at its cell in the type table, and every displayed symbolic name and
type name at their cells in the id table, with both tables spliced into
the document body. -/
theorem escaping_no_injection (s : String) (events : List Event) (n : Int) :
    (∀ x ∈ (escape s).data,
      x ≠ '<' ∧ x ≠ '>' ∧ x ≠ Char.ofNat 34 ∧ x ≠ Char.ofNat 39) ∧
    (∃ pieces : List String, escape s = String.join pieces ∧
      ∀ p ∈ pieces, p = "&amp;" ∨ p = "&lt;" ∨ p = "&gt;" ∨ p = "&quot;" ∨
        p = "&#x27;" ∨ ∃ c : Char, isMarkupSpecial c = false ∧ p = String.singleton c) ∧
    (∃ pre post : String, ∀ path : String,
      build_report path events n = pre ++ (escape path ++ post)) ∧
    (∀ (k : String) (cnt : Nat), (k, cnt) ∈ mostCommon (event_type_keys events) n →
      ∃ pre post : String, type_rows events n = pre ++ (escape k ++ post)) ∧
    (∀ (eid : Int) (name ty : String) (cnt : Nat),
      ((eid, name, ty), cnt) ∈ mostCommon (top_level_id_keys events) n →
      ∃ pre mid post : String,
        id_rows events n = pre ++ (escape name ++ (mid ++ (escape ty ++ post)))) ∧
    (∃ p1 p2 p3 p4 p5 : String,
      build_report s events n =
        p1 ++ (type_rows events n ++ (p2 ++ (id_rows events n ++ (p3 ++
          (unknown_top_level_rows events n ++ (p4 ++
            (unknown_vst_rows events n ++ p5)))))))) := by
  refine ⟨fun x hx => escape_no_raw s x hx,
    ⟨s.data.map escapeChar, rfl, ?_⟩,
    ⟨tpl1, docMid events n ++ docTail events n, fun path => rfl⟩,
    fun k cnt hk => type_rows_insertion events n k cnt hk,
    fun eid name ty cnt hk => id_rows_insertion events n eid name ty cnt hk,
    ⟨tpl1 ++ (escape s ++ docMid events n), tplMid1 n, tplMid2 n, tplMid3 n, tpl21, ?_⟩⟩
  · intro p hp
    rw [List.mem_map] at hp
    obtain ⟨c, _, rfl⟩ := hp
    rcases escapeChar_cases c with h | h | h | h | h | ⟨hs, h⟩
    all_goals tauto
  · simp only [build_report, docTail, String.append_assoc]

theorem mostCommon_single {α : Type} [DecidableEq α] (k : α) (n : Int)
    (hn : 1 ≤ n.toNat) : mostCommon [k] n = [(k, 1)] := by
  have hkeys : counterKeys [k] = [k] := by
    unfold counterKeys
    simp
  have hitems : counterItems [k] = [(k, 1)] := by
    unfold counterItems
    rw [hkeys]
    simp
  have hranked : rankedItems [k] = [(k, 1)] := by
    unfold rankedItems
    rw [hitems, List.mergeSort]
  unfold mostCommon
  rw [hranked]
  exact List.take_of_length_le (by simpa using hn)

/-- Concrete instance for `escaping_no_injection`: an event whose type name
and symbolic name both contain `<` has those fields inserted in the type
and id tables only in escaped form, and the ampersand that the escape of
`a<b` contains is none of the four raw unsafe characters. -/
theorem escaping_no_injection_witness :
    (("Ty<pe", 1) ∈
        mostCommon (event_type_keys [⟨1, some "Na<me", "Ty<pe", false, false, []⟩]) 25 ∧
      ∃ pre post : String,
        type_rows [⟨1, some "Na<me", "Ty<pe", false, false, []⟩] 25 =
          pre ++ (escape "Ty<pe" ++ post)) ∧
    ((((1 : Int), "Na<me", "Ty<pe"), 1) ∈
        mostCommon (top_level_id_keys [⟨1, some "Na<me", "Ty<pe", false, false, []⟩]) 25 ∧
      ∃ pre mid post : String,
        id_rows [⟨1, some "Na<me", "Ty<pe", false, false, []⟩] 25 =
          pre ++ (escape "Na<me" ++ (mid ++ (escape "Ty<pe" ++ post)))) ∧
    (('&' : Char) ≠ '<' ∧ ('&' : Char) ≠ '>' ∧
      ('&' : Char) ≠ Char.ofNat 34 ∧ ('&' : Char) ≠ Char.ofNat 39) := by
  have hm_t : mostCommon (event_type_keys [⟨1, some "Na<me", "Ty<pe", false, false, []⟩]) 25 =
      [("Ty<pe", 1)] := by
    rw [show event_type_keys [⟨1, some "Na<me", "Ty<pe", false, false, []⟩] =
      ["Ty<pe"] from rfl]
    exact mostCommon_single "Ty<pe" 25 (by decide)
  have hm_i : mostCommon (top_level_id_keys [⟨1, some "Na<me", "Ty<pe", false, false, []⟩]) 25 =
      [(((1 : Int), "Na<me", "Ty<pe"), 1)] := by
    rw [show top_level_id_keys [⟨1, some "Na<me", "Ty<pe", false, false, []⟩] =
      [((1 : Int), "Na<me", "Ty<pe")] from rfl]
    exact mostCommon_single ((1 : Int), "Na<me", "Ty<pe") 25 (by decide)
  have hmem_t : ("Ty<pe", 1) ∈
      mostCommon (event_type_keys [⟨1, some "Na<me", "Ty<pe", false, false, []⟩]) 25 := by
    rw [hm_t]
    exact List.mem_singleton_self _
  have hmem_i : (((1 : Int), "Na<me", "Ty<pe"), 1) ∈
      mostCommon (top_level_id_keys [⟨1, some "Na<me", "Ty<pe", false, false, []⟩]) 25 := by
    rw [hm_i]
    exact List.mem_singleton_self _
  exact ⟨⟨hmem_t,
      (escaping_no_injection "a<b" [⟨1, some "Na<me", "Ty<pe", false, false, []⟩]
        25).2.2.2.1 "Ty<pe" 1 hmem_t⟩,
    ⟨hmem_i,
      (escaping_no_injection "a<b" [⟨1, some "Na<me", "Ty<pe", false, false, []⟩]
        25).2.2.2.2.1 1 "Na<me" "Ty<pe" 1 hmem_i⟩,
    (escaping_no_injection "a<b" [] 0).1 '&' (by decide)⟩

/-- C7: a frequency table with nothing to show renders its single
placeholder row, and the document for an empty input carries all four
placeholder rows in its table bodies. -/
theorem empty_tables_placeholder (events : List Event) (path : String) (n : Int) :
    (mostCommon (event_type_keys events) n = [] →
      type_rows events n = noEventsRow2) ∧
    (mostCommon (top_level_id_keys events) n = [] →
      id_rows events n = noEventsRow4) ∧
    (mostCommon (unknown_top_level_id_keys events) n = [] →
      unknown_top_level_rows events n = noneRow2) ∧
    (mostCommon (unknown_vst_keys events) n = [] →
      unknown_vst_rows events n = noneRow2) ∧
    (type_rows [] n = noEventsRow2 ∧ id_rows [] n = noEventsRow4 ∧
      unknown_top_level_rows [] n = noneRow2 ∧ unknown_vst_rows [] n = noneRow2) ∧
    (∃ p1 p2 p3 p4 p5 : String,
      build_report path [] n =
        p1 ++ (type_rows [] n ++ (p2 ++ (id_rows [] n ++ (p3 ++
          (unknown_top_level_rows [] n ++ (p4 ++ (unknown_vst_rows [] n ++ p5)))))))) := by
  have hnil : ∀ {α : Type} [DecidableEq α], mostCommon ([] : List α) n = [] := by
    intro α _
    unfold mostCommon rankedItems counterItems counterKeys
    simp
  refine ⟨?_, ?_, ?_, ?_, ⟨?_, ?_, ?_, ?_⟩,
    ⟨tpl1 ++ (escape path ++ docMid [] n), tplMid1 n, tplMid2 n, tplMid3 n, tpl21, ?_⟩⟩
  · intro h; simp [type_rows, h, intercalate_nil_eq]
  · intro h; simp [id_rows, h, intercalate_nil_eq]
  · intro h; simp [unknown_top_level_rows, h, intercalate_nil_eq]
  · intro h; simp [unknown_vst_rows, h, intercalate_nil_eq]
  · simp [type_rows, event_type_keys, hnil, intercalate_nil_eq]
  · simp [id_rows, top_level_id_keys, hnil, intercalate_nil_eq]
  · simp [unknown_top_level_rows, unknown_top_level_id_keys, unknown_top_level, hnil,
      intercalate_nil_eq]
  · simp [unknown_vst_rows, unknown_vst_keys, unknown_vst_subevents, hnil,
      intercalate_nil_eq]
  · simp only [build_report, docTail, String.append_assoc]

/-- Concrete instance for `empty_tables_placeholder`: on the empty input
with the default limit the type table is the placeholder row. -/
theorem empty_tables_placeholder_witness :
    mostCommon (event_type_keys ([] : List Event)) 25 = [] ∧
    type_rows [] 25 = noEventsRow2 := by
  have h : mostCommon (event_type_keys ([] : List Event)) 25 = [] := by
    simp [mostCommon, rankedItems, counterItems, counterKeys, event_type_keys]
  exact ⟨h, (empty_tables_placeholder [] "p" 25).1 h⟩

/-- C8: the unknown-top-level card is styled `bad` exactly when its count
is nonzero and `ok` otherwise; the unknown-VST card is styled with the
distinct lighter `warn` class exactly when its count is nonzero; the
three styles are pairwise distinct, and the classes are spliced into the
document between the numeric metrics, which are computed from the event
sequence alone. -/
theorem severity_classes (events : List Event) (path : String) (n : Int) :
    (unknown_card_class events =
      if (unknown_top_level events).length = 0 then "ok" else "bad") ∧
    (vst_card_class events =
      if (unknown_vst_subevents events).length = 0 then "ok" else "warn") ∧
    (("bad" : String) ≠ "warn" ∧ ("bad" : String) ≠ "ok" ∧
      ("warn" : String) ≠ "ok") ∧
    (∃ q2 q3 : String,
      build_report path events n =
        (tpl1 ++ (escape path ++ (tpl2 ++ (toString events.length ++ (tpl3 ++
          (toString (parsed_events events) ++ (tpl4 ++ (fmt2 (parsed_pct events) ++
            tpl5)))))))) ++
        (unknown_card_class events ++ (q2 ++ (vst_card_class events ++ q3)))) := by
  refine ⟨?_, ?_, ⟨by decide, by decide, by decide⟩,
    ⟨tpl6 ++ (toString (unknown_top_level events).length ++ (tpl7 ++
      (fmt2 (unknown_pct events) ++ tpl8))),
     tpl9 ++ (toString (unknown_vst_subevents events).length ++ (tpl10 ++
      (fmt2 (parsed_pct events) ++ (tpl11 ++ (toString (parsed_events events) ++
      (tpl12 ++ (toString events.length ++ (tpl13 ++ (toString n ++
      (tpl14 ++ docTail events n)))))))))), ?_⟩⟩
  · unfold unknown_card_class
    by_cases h : unknown_top_level events = []
    · rw [if_pos h, if_pos (by simp [h])]
    · rw [if_neg h, if_neg (by simpa [List.length_eq_zero] using h)]
  · unfold vst_card_class
    by_cases h : unknown_vst_subevents events = []
    · rw [if_pos h, if_pos (by simp [h])]
    · rw [if_neg h, if_neg (by simpa [List.length_eq_zero] using h)]
  · simp only [build_report, docMid, String.append_assoc]

/-- Concrete instance for `severity_classes`: one unknown event yields the
`bad` styling law at a concrete input. -/
theorem severity_classes_witness :
    unknown_card_class [⟨7, none, "UnknownDataEvent", true, false, []⟩] =
      if (unknown_top_level [⟨7, none, "UnknownDataEvent", true, false, []⟩]).length = 0
      then "ok" else "bad" :=
  (severity_classes [⟨7, none, "UnknownDataEvent", true, false, []⟩] "p" 25).1

/-- C10: a zero or negative row limit renders every table as its single
placeholder row even on nonempty inputs, while the summary counts and
percentages are still those of the full event sequence. -/
theorem nonpositive_top_n (events : List Event) (path : String) (n : Int) (h : n ≤ 0) :
    type_rows events n = noEventsRow2 ∧
    id_rows events n = noEventsRow4 ∧
    unknown_top_level_rows events n = noneRow2 ∧
    unknown_vst_rows events n = noneRow2 ∧
    parsed_events events + (unknown_top_level events).length = events.length ∧
    parsed_pct events = _pct (parsed_events events) events.length ∧
    (∃ p1 p2 p3 p4 p5 : String,
      build_report path events n =
        p1 ++ (type_rows events n ++ (p2 ++ (id_rows events n ++ (p3 ++
          (unknown_top_level_rows events n ++ (p4 ++
            (unknown_vst_rows events n ++ p5)))))))) := by
  have hn : n.toNat = 0 := Int.toNat_of_nonpos h
  have hmc : ∀ {α : Type} [inst : DecidableEq α] (keys : List α),
      mostCommon keys n = [] := by
    intro α inst keys
    unfold mostCommon
    rw [hn, List.take_zero]
  refine ⟨by simp [type_rows, hmc, intercalate_nil_eq],
    by simp [id_rows, hmc, intercalate_nil_eq],
    by simp [unknown_top_level_rows, hmc, intercalate_nil_eq],
    by simp [unknown_vst_rows, hmc, intercalate_nil_eq],
    Nat.sub_add_cancel (length_unknown_top_level_le events), rfl,
    ⟨tpl1 ++ (escape path ++ docMid events n), tplMid1 n, tplMid2 n, tplMid3 n,
      tpl21, ?_⟩⟩
  simp only [build_report, docTail, String.append_assoc]

/-- Concrete instance for `nonpositive_top_n`: limit 0 on a one-event input
shows the placeholder while the summary still counts that event. -/
theorem nonpositive_top_n_witness :
    type_rows [⟨3, none, "TA", false, false, []⟩] 0 = noEventsRow2 ∧
    parsed_events [⟨3, none, "TA", false, false, []⟩] +
      (unknown_top_level [⟨3, none, "TA", false, false, []⟩]).length = 1 :=
  ⟨(nonpositive_top_n [⟨3, none, "TA", false, false, []⟩] "p" 0 (by decide)).1,
    (nonpositive_top_n [⟨3, none, "TA", false, false, []⟩] "p" 0 (by decide)).2.2.2.2.1⟩

/-- The `SystemExit` message raised by `_import_pyflp` when the import
fails even after the fallback path insertion, carrying the user-facing
install instructions (`exc.name or "dependency"` fills the hole). -/
def importErrorMessage (name : Option String) : String :=
  ("Could not import pyflp runtime dependency (" ++ name.getD "dependency" ++ ").\n") ++
    "Install project dependencies and rerun, for example:" ++
    "\n  python3.10 -m venv .venv310\n  .venv310/bin/pip install -e \x27.[dev]\x27\n  .venv310/bin/python tools/flp_parse_report.py /path/to/file.flp -o parse-report.html"

/-- The effects environment one invocation of `main` runs against: whether
the parser library imports (after the fallback `sys.path` insertion), the
missing module name when it does not, whether `pyflp.parse` raises, and
the events it yields when it succeeds. -/
structure Env where
  importOk : Bool
  missingName : Option String
  parseFails : Bool
  parsedEvents : List Event

/-- Observable outcome of one invocation of `main`: process exit code,
fatal error message if any, and the files written as (path, contents). -/
structure RunTrace where
  exitCode : Nat
  errorMessage : Option String
  written : List (String × String)
deriving DecidableEq

/-- The control flow of `main` with `_import_pyflp` and `pyflp.parse`
inlined: a failed import raises `SystemExit` with the install instructions
before anything is written (`SystemExit` with a string message exits with
code 1); a parse failure propagates before anything is written; otherwise
`build_report` completes and only then is the output file written and 0
returned. -/
def mainRun (env : Env) (flpPath outPath : String) (topN : Int) : RunTrace :=
  if env.importOk = false then
    { exitCode := 1, errorMessage := some (importErrorMessage env.missingName),
      written := [] }
  else if env.parseFails = true then
    { exitCode := 1, errorMessage := some "pyflp.parse failure", written := [] }
  else
    { exitCode := 0, errorMessage := none,
      written := [(outPath, build_report flpPath env.parsedEvents topN)] }

/-- C9: a failed import of the parser library exits non-zero with a message
carrying the install instructions and writes no output file; in any run a
file is written only after a successful import and parse, and it is
exactly the completed report. -/
theorem dependency_failure_no_output (env : Env) (flpPath outPath : String) (n : Int) :
    (env.importOk = false →
      (mainRun env flpPath outPath n).exitCode ≠ 0 ∧
      (mainRun env flpPath outPath n).written = [] ∧
      ∃ pre post : String,
        (mainRun env flpPath outPath n).errorMessage =
          some (pre ++ "Install project dependencies and rerun, for example:" ++ post)) ∧
    ((mainRun env flpPath outPath n).written ≠ [] →
      env.importOk = true ∧ env.parseFails = false ∧
      (mainRun env flpPath outPath n).written =
        [(outPath, build_report flpPath env.parsedEvents n)]) := by
  constructor
  · intro h
    have hm : mainRun env flpPath outPath n =
        { exitCode := 1, errorMessage := some (importErrorMessage env.missingName),
          written := [] } := by
      unfold mainRun
      rw [h]
      simp
    rw [hm]
    exact ⟨by simp, rfl,
      ⟨"Could not import pyflp runtime dependency (" ++
        env.missingName.getD "dependency" ++ ").\n",
       "\n  python3.10 -m venv .venv310\n  .venv310/bin/pip install -e \x27.[dev]\x27\n  .venv310/bin/python tools/flp_parse_report.py /path/to/file.flp -o parse-report.html",
       rfl⟩⟩
  · intro h
    by_cases h1 : env.importOk = false
    · exfalso
      apply h
      unfold mainRun
      rw [h1]
      simp
    · have h1t : env.importOk = true := by simpa using h1
      by_cases h2 : env.parseFails = true
      · exfalso
        apply h
        unfold mainRun
        rw [h1t, h2]
        simp
      · have h2f : env.parseFails = false := by simpa using h2
        refine ⟨h1t, h2f, ?_⟩
        unfold mainRun
        rw [h1t, h2f]
        simp

/-- Concrete instance for `dependency_failure_no_output`: a run in which
`pyflp` is missing exits with code 1 and writes nothing. -/
theorem dependency_failure_no_output_witness :
    (Env.mk false (some "pyflp") false []).importOk = false ∧
    (mainRun (Env.mk false (some "pyflp") false []) "in.flp" "out.html" 25).exitCode ≠ 0 ∧
    (mainRun (Env.mk false (some "pyflp") false []) "in.flp" "out.html" 25).written = [] :=
  ⟨rfl,
    ((dependency_failure_no_output (Env.mk false (some "pyflp") false [])
      "in.flp" "out.html" 25).1 rfl).1,
    ((dependency_failure_no_output (Env.mk false (some "pyflp") false [])
      "in.flp" "out.html" 25).1 rfl).2.1⟩

end FlpReport
